import Mathlib

/-!
Verification of the pyrogram message-dispatch core: the permission
translator (`ChatPermissions._parse`) and the send-message pipeline
(`SendMessage.send_message`), shallowly embedded from the Python source.
External collaborators (entity parser, peer resolution, the RPC `send`,
the raw-message-record parser, the random-id source) are abstracted as an
environment record; the embedding records a trace of collaborator calls so
that call-count properties are statable.
-/

namespace Pyrogram

/-- Denial-flags record `types.ChatBannedRights` (only the fields the
translator reads). Each flag is `true` when the capability is denied. -/
structure ChatBannedRights where
  send_messages : Bool
  send_media : Bool
  send_stickers : Bool
  send_gifs : Bool
  send_games : Bool
  send_inline : Bool
  embed_links : Bool
  send_polls : Bool
  change_info : Bool
  invite_users : Bool
  pin_messages : Bool
deriving DecidableEq

/-- Allow-flags record `ChatPermissions`; every field is a tri-state
boolean (`none` = unset, as in the Python `__init__` defaults). -/
structure ChatPermissions where
  can_send_messages : Option Bool
  can_send_media_messages : Option Bool
  can_send_other_messages : Option Bool
  can_add_web_page_previews : Option Bool
  can_send_polls : Option Bool
  can_change_info : Option Bool
  can_invite_users : Option Bool
  can_pin_messages : Option Bool
deriving DecidableEq

/-- Argument type of `ChatPermissions._parse`: either a
`types.ChatBannedRights` record or any other protocol object (the Python
function checks with `isinstance`). -/
inductive TLObject where
  | chatBannedRights (rights : ChatBannedRights)
  | otherObject (tag : Nat)
deriving DecidableEq

/-- `ChatPermissions._parse` (chat_permissions.py, lines 82-97): inverts the
denial record into allow flags; the `isinstance` guard failing means the
function falls through and returns `None`. -/
def ChatPermissions._parse : TLObject → Option ChatPermissions
  | .chatBannedRights d =>
      some {
        can_send_messages := some (!d.send_messages),
        can_send_media_messages := some (!d.send_media),
        can_send_other_messages :=
          some (!d.send_stickers || !d.send_gifs || !d.send_games || !d.send_inline),
        can_add_web_page_previews := some (!d.embed_links),
        can_send_polls := some (!d.send_polls),
        can_change_info := some (!d.change_info),
        can_invite_users := some (!d.invite_users),
        can_pin_messages := some (!d.pin_messages) }
  | .otherObject _ => none

/-- The all-denials-false record of spec Scenario D. -/
def allFreeRights : ChatBannedRights :=
  ⟨false, false, false, false, false, false, false, false, false, false, false⟩

/-- C1: for every denial record, `can_send_other_messages` is true iff at
least one of the four sub-capability denials is false (false only when all
four are true), every other allow flag is the plain negation of its denial
flag, and the all-false record yields all-true permissions. -/
theorem chatPermissions_parse_flags :
    (∀ d : ChatBannedRights, ∃ p : ChatPermissions,
      ChatPermissions._parse (.chatBannedRights d) = some p ∧
      (p.can_send_other_messages = some true ↔
        (d.send_stickers = false ∨ d.send_gifs = false ∨
         d.send_games = false ∨ d.send_inline = false)) ∧
      (p.can_send_other_messages = some false ↔
        (d.send_stickers = true ∧ d.send_gifs = true ∧
         d.send_games = true ∧ d.send_inline = true)) ∧
      p.can_send_messages = some (!d.send_messages) ∧
      p.can_send_media_messages = some (!d.send_media) ∧
      p.can_add_web_page_previews = some (!d.embed_links) ∧
      p.can_send_polls = some (!d.send_polls) ∧
      p.can_change_info = some (!d.change_info) ∧
      p.can_invite_users = some (!d.invite_users) ∧
      p.can_pin_messages = some (!d.pin_messages)) ∧
    ChatPermissions._parse (.chatBannedRights allFreeRights) =
      some ⟨some true, some true, some true, some true,
            some true, some true, some true, some true⟩ := by
  refine ⟨fun d => ⟨_, rfl, ?_, ?_, rfl, rfl, rfl, rfl, rfl, rfl, rfl⟩, by decide⟩
  · cases h1 : d.send_stickers <;> cases h2 : d.send_gifs <;>
      cases h3 : d.send_games <;> cases h4 : d.send_inline <;> simp
  · cases h1 : d.send_stickers <;> cases h2 : d.send_gifs <;>
      cases h3 : d.send_games <;> cases h4 : d.send_inline <;> simp

/-- C9: `ChatPermissions._parse` produces a permissions record iff its
input is a `ChatBannedRights` record, and returns `None` (absence, not an
error) on every other input. -/
theorem chatPermissions_parse_none_iff (x : TLObject) :
    ((ChatPermissions._parse x).isSome ↔ ∃ r, x = TLObject.chatBannedRights r) ∧
    (∀ t, ChatPermissions._parse (.otherObject t) = none) := by
  constructor
  · cases x with
    | chatBannedRights r => simp [ChatPermissions._parse]
    | otherObject t => simp [ChatPermissions._parse]
  · intro t
    rfl

/-- A chat identifier as the caller passes it: numeric id or username. -/
inductive ChatId where
  | intId (i : Int)
  | strId (s : String)
deriving DecidableEq

/-- Resolved protocol peer reference; `send_message` distinguishes
`InputPeerUser` (carrying `user_id`) from the other shape whose `chat_id`
it negates. -/
inductive InputPeer where
  | user (user_id : Int) (access_hash : Int)
  | chat (chat_id : Int)
deriving DecidableEq

/-- A style entity over the plain text (kind, offset, length). -/
structure MessageEntity where
  kind : Nat
  offset : Nat
  length : Nat
deriving DecidableEq

/-- A Python list object: a heap reference (identity) together with its
content. Plain assignment and argument passing copy `ref`, never `val`,
so two fields alias exactly when their `ref`s coincide. -/
structure PyList (α : Type) where
  ref : Nat
  val : List α
deriving DecidableEq

/-- The caller's `parse_mode` argument: the Python default is the sentinel
`object` (no mode passed), an explicit `None` disables parsing, and a
string selects a style. -/
inductive ParseModeArg where
  | unset
  | disabled
  | mode (s : String)
deriving DecidableEq

/-- Effective style of the entity parser (spec section 3). -/
inductive EffectiveParseMode where
  | combined
  | markdownOnly
  | htmlOnly
  | noParsing
deriving DecidableEq

/-- Modelled from the spec: the entity parser component is not under src/;
per the spec it resolves the sentinel default (no mode passed) to the
combined Markdown+HTML style, the strings "markdown"/"md" to Markdown
only, "html" to HTML only, and an explicit `None` to no parsing; other
strings are left unspecified. -/
def effectiveParseMode : ParseModeArg → Option EffectiveParseMode
  | .unset => some .combined
  | .disabled => some .noParsing
  | .mode "markdown" => some .markdownOnly
  | .mode "md" => some .markdownOnly
  | .mode "html" => some .htmlOnly
  | .mode _ => none

/-- Result of `self.parser.parse(text, parse_mode)`: the plain text
(`message`) and the entity sequence. -/
structure ParserOutput where
  message : String
  entities : List MessageEntity
deriving DecidableEq

/-- Reply-markup object; `write` is its wire serialization. -/
structure ReplyMarkup where
  wire : Nat
deriving DecidableEq

def ReplyMarkup.write (m : ReplyMarkup) : Nat := m.wire

/-- The `functions.messages.SendMessage` request built at lines 121-133.
`no_webpage` and `silent` are optional wire fields: `none` means the field
is absent from the serialization. `entities` is the list object produced
by the parser (a reference, not a copy). -/
structure SendMessageRequest where
  peer : InputPeer
  no_webpage : Option Bool
  silent : Option Bool
  reply_to_msg_id : Option Int
  random_id : Int
  schedule_date : Option Int
  reply_markup : Option Nat
  message : String
  entities : PyList MessageEntity
deriving DecidableEq

/-- Translation of the Python idiom `b or None` for a `bool`-typed
argument defaulting to `None`: only an explicit `True` survives. -/
def pyOrNone : Option Bool → Option Bool
  | some true => some true
  | some false => none
  | none => none

/-- An undecoded server message record (opaque to this flow). -/
structure RawMessage where
  raw : Nat
deriving DecidableEq

/-- A server user record: its id plus opaque payload. -/
structure RawUser where
  id : Int
  raw : Nat
deriving DecidableEq

/-- A server chat record: its id plus opaque payload. -/
structure RawChat where
  id : Int
  raw : Nat
deriving DecidableEq

/-- An element of the `updates` sequence of an updates batch; only the
three New*Message variants matter to this flow. -/
inductive Update where
  | newMessage (message : RawMessage)
  | newChannelMessage (message : RawMessage)
  | newScheduledMessage (message : RawMessage)
  | otherUpdate (tag : Nat)
deriving DecidableEq

/-- `types.UpdateShortSentMessage`: the lightweight confirmation. -/
structure UpdateShortSentMessage where
  id : Int
  out : Bool
  date : Int
deriving DecidableEq

/-- The updates-batch response shape (`r.updates` / `r.users` / `r.chats`). -/
structure UpdatesBatch where
  updates : List Update
  users : List RawUser
  chats : List RawChat
deriving DecidableEq

/-- The polymorphic result of the RPC `send` call. -/
inductive RpcResult where
  | shortSent (u : UpdateShortSentMessage)
  | updates (b : UpdatesBatch)
deriving DecidableEq

/-- Domain chat reference (`pyrogram.Chat`, fields used here). -/
structure Chat where
  id : Int
  type : String
deriving DecidableEq

/-- Domain `pyrogram.Message` (fields this flow constructs; unpassed
constructor arguments default to `none`). -/
structure Message where
  message_id : Int
  chat : Option Chat
  text : Option String
  date : Option Int
  outgoing : Option Bool
  entities : Option (PyList MessageEntity)
deriving DecidableEq

/-- The argument bundle of one `pyrogram.Message._parse` invocation: the
raw record, the id-keyed user and chat lookup maps, and the
`is_scheduled` flag. -/
structure MsgParseCall where
  message : RawMessage
  users_by_id : Int → Option RawUser
  chats_by_id : Int → Option RawChat
  is_scheduled : Bool

/-- One collaborator call made during a `send_message` run. -/
inductive Event where
  | parseCall (text : String) (mode : ParseModeArg)
  | resolvePeerCall (chat : ChatId)
  | rndIdCall
  | sendCall
deriving DecidableEq

/-- The external collaborators of the client, abstracted as pure
functions: the entity parser, peer resolution, the random-id source, the
RPC send, and the raw-message-record parser. -/
structure Env where
  parser : String → ParseModeArg → ParserOutput
  resolve_peer : ChatId → InputPeer
  rnd_id : Int
  send : SendMessageRequest → RpcResult
  message_parse : MsgParseCall → Message

/-- Python dict insertion: later entries overwrite earlier ones. -/
def dictInsert {α : Type} (m : Int → Option α) (k : Int) (v : α) :
    Int → Option α :=
  fun q => if q = k then some v else m q

/-- The dict comprehension over `r.users` keyed by id. -/
def usersById (users : List RawUser) : Int → Option RawUser :=
  users.foldl (fun m u => dictInsert m u.id u) (fun _ => none)

/-- The dict comprehension over `r.chats` keyed by id. -/
def chatsById (chats : List RawChat) : Int → Option RawChat :=
  chats.foldl (fun m c => dictInsert m c.id c) (fun _ => none)

/-- Whether an update is one of the three variants the loop matches. -/
def isNewMessageUpdate : Update → Bool
  | .newMessage _ => true
  | .newChannelMessage _ => true
  | .newScheduledMessage _ => true
  | .otherUpdate _ => false

/-- The raw message record wrapped by a matching update. -/
def Update.rawMessage : Update → Option RawMessage
  | .newMessage m => some m
  | .newChannelMessage m => some m
  | .newScheduledMessage m => some m
  | .otherUpdate _ => none

/-- Whether the update is the scheduled variant. -/
def Update.isNewScheduled : Update → Bool
  | .newScheduledMessage _ => true
  | _ => false

/-- The for-loop of lines 158-165: scan the updates in order and, at the
first New*Message variant, assemble the arguments passed to
`pyrogram.Message._parse`; fall through to `none` otherwise. -/
def scanUpdates (users : List RawUser) (chats : List RawChat) :
    List Update → Option MsgParseCall
  | [] => none
  | .newMessage m :: _ =>
      some ⟨m, usersById users, chatsById chats, false⟩
  | .newChannelMessage m :: _ =>
      some ⟨m, usersById users, chatsById chats, false⟩
  | .newScheduledMessage m :: _ =>
      some ⟨m, usersById users, chatsById chats, true⟩
  | .otherUpdate _ :: rest => scanUpdates users chats rest

/-- The request assembly of lines 121-133. The parser output list is the
first allocation of the run, at address 0. -/
def buildRequest (env : Env) (chat_id : ChatId) (text : String)
    (parse_mode : ParseModeArg) (disable_web_page_preview : Option Bool)
    (disable_notification : Option Bool) (reply_to_message_id : Option Int)
    (schedule_date : Option Int) (reply_markup : Option ReplyMarkup) :
    SendMessageRequest :=
  { peer := env.resolve_peer chat_id,
    no_webpage := pyOrNone disable_web_page_preview,
    silent := pyOrNone disable_notification,
    reply_to_msg_id := reply_to_message_id,
    random_id := env.rnd_id,
    schedule_date := schedule_date,
    reply_markup := Option.map ReplyMarkup.write reply_markup,
    message := (env.parser text parse_mode).message,
    entities := ⟨0, (env.parser text parse_mode).entities⟩ }

/-- Modelled from the spec: the `pyrogram.Message` constructor is not
under src/; per the spec a Message is constructed fresh per response and
owns its entities sequence (copied from the parser output, not shared),
so the constructor stores a fresh copy of the incoming list at the next
free address rather than the caller's reference. -/
def messageEntitiesCopy (fresh : Nat) (e : PyList MessageEntity) :
    PyList MessageEntity :=
  ⟨fresh, e.val⟩

/-- Sign-convention peer identity of lines 138-142: the positive user id
for a user peer, else the negated chat id. -/
def shortPeerId : InputPeer → Int
  | .user uid _ => uid
  | .chat cid => -cid

/-- The `Message` constructed on the short-confirmation path
(lines 144-156). The copy made by the Message constructor is the second
allocation of the run, at address 1. -/
def shortMessage (peer : InputPeer) (u : UpdateShortSentMessage)
    (message : String) (entities : PyList MessageEntity) : Message :=
  { message_id := u.id,
    chat := some { id := shortPeerId peer, type := "private" },
    text := some message,
    date := some u.date,
    outgoing := some u.out,
    entities := some (messageEntitiesCopy 1 entities) }

/-- The observable outcome of one `send_message` run: the collaborator
call trace, the request handed to `send`, the response, the
`Message._parse` invocation made on the batch path (if any), and the
returned value. -/
structure RunResult where
  trace : List Event
  request : SendMessageRequest
  response : RpcResult
  msgCall : Option MsgParseCall
  result : Option Message

/-- `SendMessage.send_message` (send_message.py, lines 119-166): parse the
text, build and send the request, then resolve the response by shape. -/
def send_message (env : Env) (chat_id : ChatId) (text : String)
    (parse_mode : ParseModeArg) (disable_web_page_preview : Option Bool)
    (disable_notification : Option Bool) (reply_to_message_id : Option Int)
    (schedule_date : Option Int) (reply_markup : Option ReplyMarkup) :
    RunResult :=
  let req := buildRequest env chat_id text parse_mode
    disable_web_page_preview disable_notification reply_to_message_id
    schedule_date reply_markup
  { trace :=
      [Event.parseCall text parse_mode, Event.resolvePeerCall chat_id,
       Event.rndIdCall, Event.sendCall] ++
      (match env.send req with
       | .shortSent _ => [Event.resolvePeerCall chat_id]
       | .updates _ => []),
    request := req,
    response := env.send req,
    msgCall :=
      match env.send req with
      | .shortSent _ => none
      | .updates b => scanUpdates b.users b.chats b.updates,
    result :=
      match env.send req with
      | .shortSent u =>
          some (shortMessage (env.resolve_peer chat_id) u
            (env.parser text parse_mode).message
            ⟨0, (env.parser text parse_mode).entities⟩)
      | .updates b =>
          Option.map env.message_parse
            (scanUpdates b.users b.chats b.updates) }

/-- Whether an event is an entity-parser invocation. -/
def isParseEvent : Event → Bool
  | .parseCall _ _ => true
  | _ => false

/-- Whether an event is a resolve_peer invocation. -/
def isResolvePeerEvent : Event → Bool
  | .resolvePeerCall _ => true
  | _ => false

lemma pyOrNone_spec (o : Option Bool) :
    (pyOrNone o = some true ↔ o = some true) ∧ pyOrNone o ≠ some false := by
  rcases o with _ | b
  · simp [pyOrNone]
  · cases b <;> simp [pyOrNone]

/-- C2: the built request carries `no_webpage` (resp. `silent`) as a
present true field iff the caller passed `disable_web_page_preview = true`
(resp. `disable_notification = true`); a caller false or unset argument
yields an absent field, never an explicit false. -/
theorem sendMessage_optional_flags (env : Env) (chat_id : ChatId)
    (text : String) (parse_mode : ParseModeArg)
    (disable_web_page_preview disable_notification : Option Bool)
    (reply_to_message_id schedule_date : Option Int)
    (reply_markup : Option ReplyMarkup) :
    ((send_message env chat_id text parse_mode disable_web_page_preview
        disable_notification reply_to_message_id schedule_date
        reply_markup).request.no_webpage = some true ↔
      disable_web_page_preview = some true) ∧
    (send_message env chat_id text parse_mode disable_web_page_preview
        disable_notification reply_to_message_id schedule_date
        reply_markup).request.no_webpage ≠ some false ∧
    ((send_message env chat_id text parse_mode disable_web_page_preview
        disable_notification reply_to_message_id schedule_date
        reply_markup).request.silent = some true ↔
      disable_notification = some true) ∧
    (send_message env chat_id text parse_mode disable_web_page_preview
        disable_notification reply_to_message_id schedule_date
        reply_markup).request.silent ≠ some false := by
  have h1 := pyOrNone_spec disable_web_page_preview
  have h2 := pyOrNone_spec disable_notification
  exact ⟨h1.1, h1.2, h2.1, h2.2⟩

/-- C7: one run of send_message invokes the entity parser exactly once,
on the caller's text and parse mode, the request carries exactly the
parser's plain text and entity sequence, and the sentinel default mode
resolves to the combined Markdown+HTML style. -/
theorem sendMessage_parser_once (env : Env) (chat_id : ChatId)
    (text : String) (parse_mode : ParseModeArg)
    (disable_web_page_preview disable_notification : Option Bool)
    (reply_to_message_id schedule_date : Option Int)
    (reply_markup : Option ReplyMarkup) :
    (send_message env chat_id text parse_mode disable_web_page_preview
        disable_notification reply_to_message_id schedule_date
        reply_markup).trace.filter isParseEvent =
      [Event.parseCall text parse_mode] ∧
    (send_message env chat_id text parse_mode disable_web_page_preview
        disable_notification reply_to_message_id schedule_date
        reply_markup).request.message = (env.parser text parse_mode).message ∧
    (send_message env chat_id text parse_mode disable_web_page_preview
        disable_notification reply_to_message_id schedule_date
        reply_markup).request.entities.val =
      (env.parser text parse_mode).entities ∧
    effectiveParseMode ParseModeArg.unset = some EffectiveParseMode.combined := by
  refine ⟨?_, rfl, rfl, rfl⟩
  simp only [send_message, buildRequest, List.filter_append]
  cases h : env.send (buildRequest env chat_id text parse_mode
      disable_web_page_preview disable_notification reply_to_message_id
      schedule_date reply_markup) <;>
    simp [buildRequest] at h <;>
    simp [h, List.filter, isParseEvent]

/-- C10: when the response is a short sent confirmation, send_message
calls the external resolve_peer collaborator exactly twice, both times
with the caller's chat_id (once for the request, once again to
reconstruct the chat identity). -/
theorem sendMessage_resolve_peer_twice (env : Env) (chat_id : ChatId)
    (text : String) (parse_mode : ParseModeArg)
    (disable_web_page_preview disable_notification : Option Bool)
    (reply_to_message_id schedule_date : Option Int)
    (reply_markup : Option ReplyMarkup) (u : UpdateShortSentMessage)
    (h : (send_message env chat_id text parse_mode disable_web_page_preview
        disable_notification reply_to_message_id schedule_date
        reply_markup).response = RpcResult.shortSent u) :
    (send_message env chat_id text parse_mode disable_web_page_preview
        disable_notification reply_to_message_id schedule_date
        reply_markup).trace.filter isResolvePeerEvent =
      [Event.resolvePeerCall chat_id, Event.resolvePeerCall chat_id] := by
  have hsend : env.send (buildRequest env chat_id text parse_mode
      disable_web_page_preview disable_notification reply_to_message_id
      schedule_date reply_markup) = RpcResult.shortSent u := h
  simp [send_message, hsend, List.filter, isParseEvent, isResolvePeerEvent]

/-- A fixed environment whose RPC send yields the short confirmation of
spec Scenario B for the private chat with user id 777. -/
def envShort : Env :=
  { parser := fun t _ => ⟨t, [⟨1, 0, 2⟩]⟩,
    resolve_peer := fun _ => InputPeer.user 777 99,
    rnd_id := 5,
    send := fun _ => RpcResult.shortSent ⟨42, true, 1000⟩,
    message_parse := fun _ => ⟨0, none, none, none, none, none⟩ }

/-- Witness for C10 at a concrete run against envShort. -/
theorem sendMessage_resolve_peer_twice_witness :
    (send_message envShort (ChatId.intId 777) "hi" ParseModeArg.unset
        none none none none none).trace.filter isResolvePeerEvent =
      [Event.resolvePeerCall (ChatId.intId 777),
       Event.resolvePeerCall (ChatId.intId 777)] :=
  sendMessage_resolve_peer_twice envShort (ChatId.intId 777) "hi"
    ParseModeArg.unset none none none none none ⟨42, true, 1000⟩ rfl

/-- C3: on a short sent confirmation, the returned Message takes its id,
date and outgoing flag from the confirmation, and its chat is the
sign-convention identity (positive user id for a user peer, negated chat
id otherwise) with type "private". -/
theorem sendMessage_short_reconstruction (env : Env) (chat_id : ChatId)
    (text : String) (parse_mode : ParseModeArg)
    (disable_web_page_preview disable_notification : Option Bool)
    (reply_to_message_id schedule_date : Option Int)
    (reply_markup : Option ReplyMarkup) (u : UpdateShortSentMessage)
    (h : (send_message env chat_id text parse_mode disable_web_page_preview
        disable_notification reply_to_message_id schedule_date
        reply_markup).response = RpcResult.shortSent u) :
    ∃ m : Message,
      (send_message env chat_id text parse_mode disable_web_page_preview
          disable_notification reply_to_message_id schedule_date
          reply_markup).result = some m ∧
      m.message_id = u.id ∧
      m.date = some u.date ∧
      m.outgoing = some u.out ∧
      m.chat = some ⟨shortPeerId (env.resolve_peer chat_id), "private"⟩ ∧
      (∀ uid ah, env.resolve_peer chat_id = InputPeer.user uid ah →
        m.chat = some ⟨uid, "private"⟩) ∧
      (∀ cid, env.resolve_peer chat_id = InputPeer.chat cid →
        m.chat = some ⟨-cid, "private"⟩) := by
  have hsend : env.send (buildRequest env chat_id text parse_mode
      disable_web_page_preview disable_notification reply_to_message_id
      schedule_date reply_markup) = RpcResult.shortSent u := h
  refine ⟨shortMessage (env.resolve_peer chat_id) u
      (env.parser text parse_mode).message
      ⟨0, (env.parser text parse_mode).entities⟩,
    by simp [send_message, hsend], rfl, rfl, rfl, rfl, ?_, ?_⟩
  · intro uid ah hp
    simp [shortMessage, shortPeerId, hp]
  · intro cid hp
    simp [shortMessage, shortPeerId, hp]

/-- Witness for C3: spec Scenario B — confirmation (42, out, 1000) for the
private chat with user id 777 yields Message 42 in chat 777, type
private, outgoing, date 1000. -/
theorem sendMessage_short_reconstruction_witness :
    ∃ m : Message,
      (send_message envShort (ChatId.intId 777) "hi" ParseModeArg.unset
          none none none none none).result = some m ∧
      m.message_id = 42 ∧
      m.date = some 1000 ∧
      m.outgoing = some true ∧
      m.chat = some ⟨777, "private"⟩ := by
  obtain ⟨m, hm, h1, h2, h3, h4, -, -⟩ :=
    sendMessage_short_reconstruction envShort (ChatId.intId 777) "hi"
      ParseModeArg.unset none none none none none ⟨42, true, 1000⟩ rfl
  exact ⟨m, hm, h1, h2, h3, h4⟩

/-- C6: on a short sent confirmation, the returned Message's text and
entity content are exactly the plain text and entity sequence the entity
parser produced before the send, for every confirmation value (so nothing
is re-derived from the response envelope). -/
theorem sendMessage_short_text_preparsed (env : Env) (chat_id : ChatId)
    (text : String) (parse_mode : ParseModeArg)
    (disable_web_page_preview disable_notification : Option Bool)
    (reply_to_message_id schedule_date : Option Int)
    (reply_markup : Option ReplyMarkup) (u : UpdateShortSentMessage)
    (h : (send_message env chat_id text parse_mode disable_web_page_preview
        disable_notification reply_to_message_id schedule_date
        reply_markup).response = RpcResult.shortSent u) :
    ∃ m : Message,
      (send_message env chat_id text parse_mode disable_web_page_preview
          disable_notification reply_to_message_id schedule_date
          reply_markup).result = some m ∧
      m.text = some (env.parser text parse_mode).message ∧
      ∃ e : PyList MessageEntity, m.entities = some e ∧
        e.val = (env.parser text parse_mode).entities := by
  have hsend : env.send (buildRequest env chat_id text parse_mode
      disable_web_page_preview disable_notification reply_to_message_id
      schedule_date reply_markup) = RpcResult.shortSent u := h
  exact ⟨shortMessage (env.resolve_peer chat_id) u
      (env.parser text parse_mode).message
      ⟨0, (env.parser text parse_mode).entities⟩,
    by simp [send_message, hsend], rfl, _, rfl, rfl⟩

/-- Witness for C6 at a concrete run against envShort. -/
theorem sendMessage_short_text_preparsed_witness :
    ∃ m : Message,
      (send_message envShort (ChatId.intId 777) "hi" ParseModeArg.unset
          none none none none none).result = some m ∧
      m.text = some "hi" ∧
      ∃ e : PyList MessageEntity, m.entities = some e ∧
        e.val = [⟨1, 0, 2⟩] :=
  sendMessage_short_text_preparsed envShort (ChatId.intId 777) "hi"
    ParseModeArg.unset none none none none none ⟨42, true, 1000⟩ rfl

/-- C8: the Message returned on the short-confirmation path holds an
entities list with the same content as, but a different object identity
from, the entities list placed in the outgoing request (the Message
constructor, modelled from the spec, copies the sequence). -/
theorem sendMessage_entities_owned (env : Env) (chat_id : ChatId)
    (text : String) (parse_mode : ParseModeArg)
    (disable_web_page_preview disable_notification : Option Bool)
    (reply_to_message_id schedule_date : Option Int)
    (reply_markup : Option ReplyMarkup) (u : UpdateShortSentMessage)
    (h : (send_message env chat_id text parse_mode disable_web_page_preview
        disable_notification reply_to_message_id schedule_date
        reply_markup).response = RpcResult.shortSent u) :
    ∃ (m : Message) (e : PyList MessageEntity),
      (send_message env chat_id text parse_mode disable_web_page_preview
          disable_notification reply_to_message_id schedule_date
          reply_markup).result = some m ∧
      m.entities = some e ∧
      e.ref ≠ (send_message env chat_id text parse_mode
          disable_web_page_preview disable_notification reply_to_message_id
          schedule_date reply_markup).request.entities.ref ∧
      e.val = (send_message env chat_id text parse_mode
          disable_web_page_preview disable_notification reply_to_message_id
          schedule_date reply_markup).request.entities.val := by
  have hsend : env.send (buildRequest env chat_id text parse_mode
      disable_web_page_preview disable_notification reply_to_message_id
      schedule_date reply_markup) = RpcResult.shortSent u := h
  refine ⟨shortMessage (env.resolve_peer chat_id) u
      (env.parser text parse_mode).message
      ⟨0, (env.parser text parse_mode).entities⟩,
    messageEntitiesCopy 1 ⟨0, (env.parser text parse_mode).entities⟩,
    by simp [send_message, hsend], rfl, ?_, rfl⟩
  simp [send_message, buildRequest, messageEntitiesCopy]

/-- Witness for C8 at a concrete run against envShort. -/
theorem sendMessage_entities_owned_witness :
    ∃ (m : Message) (e : PyList MessageEntity),
      (send_message envShort (ChatId.intId 777) "hi" ParseModeArg.unset
          none none none none none).result = some m ∧
      m.entities = some e ∧
      e.ref ≠ (send_message envShort (ChatId.intId 777) "hi"
          ParseModeArg.unset none none none none none).request.entities.ref ∧
      e.val = (send_message envShort (ChatId.intId 777) "hi"
          ParseModeArg.unset none none none none none).request.entities.val :=
  sendMessage_entities_owned envShort (ChatId.intId 777) "hi"
    ParseModeArg.unset none none none none none ⟨42, true, 1000⟩ rfl

lemma usersById_append_single (us : List RawUser) (u : RawUser) (k : Int) :
    usersById (us ++ [u]) k = if k = u.id then some u else usersById us k := by
  simp [usersById, List.foldl_append, dictInsert]

lemma chatsById_append_single (cs : List RawChat) (c : RawChat) (k : Int) :
    chatsById (cs ++ [c]) k = if k = c.id then some c else chatsById cs k := by
  simp [chatsById, List.foldl_append, dictInsert]

lemma scanUpdates_of_find (us : List RawUser) (cs : List RawChat) :
    ∀ (l : List Update) (i : Update),
      l.find? isNewMessageUpdate = some i →
      ∃ m, Update.rawMessage i = some m ∧
        scanUpdates us cs l =
          some ⟨m, usersById us, chatsById cs, Update.isNewScheduled i⟩ := by
  intro l
  induction l with
  | nil => intro i hi; simp at hi
  | cons hd tl ih =>
      intro i hi
      cases hd with
      | newMessage m =>
          simp [isNewMessageUpdate, List.find?] at hi
          subst hi
          exact ⟨m, rfl, rfl⟩
      | newChannelMessage m =>
          simp [isNewMessageUpdate, List.find?] at hi
          subst hi
          exact ⟨m, rfl, rfl⟩
      | newScheduledMessage m =>
          simp [isNewMessageUpdate, List.find?] at hi
          subst hi
          exact ⟨m, rfl, rfl⟩
      | otherUpdate t =>
          rw [List.find?] at hi
          simp only [isNewMessageUpdate] at hi
          exact ih i hi

lemma scanUpdates_of_no_match (us : List RawUser) (cs : List RawChat) :
    ∀ l : List Update, (∀ i ∈ l, isNewMessageUpdate i = false) →
      scanUpdates us cs l = none := by
  intro l
  induction l with
  | nil => intro _; rfl
  | cons hd tl ih =>
      intro hall
      cases hd with
      | newMessage m => exact absurd (hall _ (List.mem_cons_self _ _)) (by simp [isNewMessageUpdate])
      | newChannelMessage m => exact absurd (hall _ (List.mem_cons_self _ _)) (by simp [isNewMessageUpdate])
      | newScheduledMessage m => exact absurd (hall _ (List.mem_cons_self _ _)) (by simp [isNewMessageUpdate])
      | otherUpdate t =>
          exact ih (fun i hi => hall i (List.mem_cons_of_mem _ hi))

/-- C4: on an updates batch, send_message hands the raw-message parser the
payload of the first update matching one of the three New*Message
variants, together with the id-keyed user and chat lookup maps (for which
the last entry wins on duplicate ids) and is_scheduled true exactly for
the scheduled variant, and returns the parser's Message. -/
theorem sendMessage_updates_first_match (env : Env) (chat_id : ChatId)
    (text : String) (parse_mode : ParseModeArg)
    (disable_web_page_preview disable_notification : Option Bool)
    (reply_to_message_id schedule_date : Option Int)
    (reply_markup : Option ReplyMarkup) (b : UpdatesBatch) (i : Update)
    (h : (send_message env chat_id text parse_mode disable_web_page_preview
        disable_notification reply_to_message_id schedule_date
        reply_markup).response = RpcResult.updates b)
    (hfind : b.updates.find? isNewMessageUpdate = some i) :
    (∃ m, Update.rawMessage i = some m ∧
      (send_message env chat_id text parse_mode disable_web_page_preview
          disable_notification reply_to_message_id schedule_date
          reply_markup).msgCall =
        some ⟨m, usersById b.users, chatsById b.chats,
              Update.isNewScheduled i⟩ ∧
      (send_message env chat_id text parse_mode disable_web_page_preview
          disable_notification reply_to_message_id schedule_date
          reply_markup).result =
        some (env.message_parse
          ⟨m, usersById b.users, chatsById b.chats,
           Update.isNewScheduled i⟩)) ∧
    (∀ k, usersById [] k = none) ∧
    (∀ us u k, usersById (us ++ [u]) k =
      if k = u.id then some u else usersById us k) ∧
    (∀ k, chatsById [] k = none) ∧
    (∀ cs c k, chatsById (cs ++ [c]) k =
      if k = c.id then some c else chatsById cs k) := by
  have hsend : env.send (buildRequest env chat_id text parse_mode
      disable_web_page_preview disable_notification reply_to_message_id
      schedule_date reply_markup) = RpcResult.updates b := h
  obtain ⟨m, hm, hscan⟩ :=
    scanUpdates_of_find b.users b.chats b.updates i hfind
  refine ⟨⟨m, hm, ?_, ?_⟩, fun _ => rfl, usersById_append_single,
    fun _ => rfl, chatsById_append_single⟩
  · simp [send_message, hsend, hscan]
  · simp [send_message, hsend, hscan]

/-- A fixed environment whose RPC send yields an updates batch whose first
matching update is a scheduled new message, with a duplicate user id. -/
def envBatch : Env :=
  { parser := fun t _ => ⟨t, []⟩,
    resolve_peer := fun _ => InputPeer.chat 300,
    rnd_id := 6,
    send := fun _ => RpcResult.updates
      ⟨[Update.otherUpdate 9, Update.newScheduledMessage ⟨3⟩,
        Update.newMessage ⟨4⟩],
       [⟨5, 1⟩, ⟨5, 2⟩], [⟨6, 3⟩]⟩,
    message_parse := fun c => ⟨Int.ofNat c.message.raw, none, none, none,
      none, none⟩ }

/-- Witness for C4 at a concrete run against envBatch: the scheduled
update in second position is matched, not the plain new message after
it. -/
theorem sendMessage_updates_first_match_witness :
    (∃ m, Update.rawMessage (Update.newScheduledMessage ⟨3⟩) = some m ∧
      (send_message envBatch (ChatId.intId 1) "t" ParseModeArg.unset
          none none none none none).msgCall =
        some ⟨m, usersById [⟨5, 1⟩, ⟨5, 2⟩], chatsById [⟨6, 3⟩],
              Update.isNewScheduled (Update.newScheduledMessage ⟨3⟩)⟩ ∧
      (send_message envBatch (ChatId.intId 1) "t" ParseModeArg.unset
          none none none none none).result =
        some (envBatch.message_parse
          ⟨m, usersById [⟨5, 1⟩, ⟨5, 2⟩], chatsById [⟨6, 3⟩],
           Update.isNewScheduled (Update.newScheduledMessage ⟨3⟩)⟩)) ∧
    (∀ k, usersById [] k = none) ∧
    (∀ us u k, usersById (us ++ [u]) k =
      if k = u.id then some u else usersById us k) ∧
    (∀ k, chatsById [] k = none) ∧
    (∀ cs c k, chatsById (cs ++ [c]) k =
      if k = c.id then some c else chatsById cs k) :=
  sendMessage_updates_first_match envBatch (ChatId.intId 1) "t"
    ParseModeArg.unset none none none none none
    ⟨[Update.otherUpdate 9, Update.newScheduledMessage ⟨3⟩,
      Update.newMessage ⟨4⟩], [⟨5, 1⟩, ⟨5, 2⟩], [⟨6, 3⟩]⟩
    (Update.newScheduledMessage ⟨3⟩) rfl (by decide)

/-- C5: on an updates batch containing no New*Message variant,
send_message returns absence (no Message, no raw-parse call), not an
error. -/
theorem sendMessage_updates_no_match_none (env : Env) (chat_id : ChatId)
    (text : String) (parse_mode : ParseModeArg)
    (disable_web_page_preview disable_notification : Option Bool)
    (reply_to_message_id schedule_date : Option Int)
    (reply_markup : Option ReplyMarkup) (b : UpdatesBatch)
    (h : (send_message env chat_id text parse_mode disable_web_page_preview
        disable_notification reply_to_message_id schedule_date
        reply_markup).response = RpcResult.updates b)
    (hnone : ∀ i ∈ b.updates, isNewMessageUpdate i = false) :
    (send_message env chat_id text parse_mode disable_web_page_preview
        disable_notification reply_to_message_id schedule_date
        reply_markup).result = none ∧
    (send_message env chat_id text parse_mode disable_web_page_preview
        disable_notification reply_to_message_id schedule_date
        reply_markup).msgCall = none := by
  have hsend : env.send (buildRequest env chat_id text parse_mode
      disable_web_page_preview disable_notification reply_to_message_id
      schedule_date reply_markup) = RpcResult.updates b := h
  have hscan := scanUpdates_of_no_match b.users b.chats b.updates hnone
  constructor
  · simp [send_message, hsend, hscan]
  · simp [send_message, hsend, hscan]

/-- A fixed environment whose RPC send yields a batch of only unrelated
update variants (spec Scenario C). -/
def envNoMatch : Env :=
  { parser := fun t _ => ⟨t, []⟩,
    resolve_peer := fun _ => InputPeer.chat 300,
    rnd_id := 7,
    send := fun _ => RpcResult.updates
      ⟨[Update.otherUpdate 1, Update.otherUpdate 2], [], []⟩,
    message_parse := fun _ => ⟨0, none, none, none, none, none⟩ }

/-- Witness for C5 at a concrete run against envNoMatch. -/
theorem sendMessage_updates_no_match_none_witness :
    (send_message envNoMatch (ChatId.intId 1) "t" ParseModeArg.unset
        none none none none none).result = none ∧
    (send_message envNoMatch (ChatId.intId 1) "t" ParseModeArg.unset
        none none none none none).msgCall = none :=
  sendMessage_updates_no_match_none envNoMatch (ChatId.intId 1) "t"
    ParseModeArg.unset none none none none none
    ⟨[Update.otherUpdate 1, Update.otherUpdate 2], [], []⟩ rfl (by decide)

end Pyrogram
